import Mathlib

/-!
Verification of the PiliPlus login helper scripts
(`scripts/bili_sms_login.py`, `scripts/bili_qr_confirm.py`).

The Python sources are shallowly embedded: pure string manipulation becomes
Lean functions on `String`/`List Char`, byte buffers become `List Nat` with
explicit `% 256` / `% 2 ^ 32` arithmetic, Python dicts become association
lists with first-occurrence lookup and replace-or-append update, fallible
code returns `Except String`, and HTTP responses are a record of status,
content type, body text and the (optional) JSON parse of the body.

The relevant pieces of the Python standard library used by the scripts
(`urllib.parse.quote_plus`, `urlencode`, `urlparse(...).query`, `parse_qs`,
`hashlib.md5`, `str.strip`) are modelled here faithfully; the MD5
implementation below is a complete translation of the RFC 1321 algorithm,
so signing and device-id generation are fully executable.
-/

/-! ## Python string primitives -/

/-- Whitespace characters stripped by Python `str.strip()` (the ASCII
subset; the scripts only ever strip user-typed codes and URLs). -/
def isPyWs (c : Char) : Bool :=
  c = ' ' || c = '\t' || c = '\n' || c = '\r' || c = '\x0b' || c = '\x0c'

/-- Model of Python `str.strip()`. -/
def pyStrip (s : String) : String :=
  String.mk (((s.data.dropWhile isPyWs).reverse.dropWhile isPyWs).reverse)

/-- Boolean list-level test that `n` begins `h`. -/
def listIsPref : List Char → List Char → Bool
  | [], _ => true
  | _ :: _, [] => false
  | a :: as, b :: bs => a == b && listIsPref as bs

/-- Boolean list-level test that `n` occurs contiguously inside `h`
(Python substring membership `n in h`). -/
def listHasSub (n : List Char) : List Char → Bool
  | [] => listIsPref n []
  | c :: cs => listIsPref n (c :: cs) || listHasSub n cs

/-- Model of Python `s.startswith(p)`. -/
def strStartsWith (s p : String) : Bool :=
  listIsPref p.data s.data

/-- Model of Python `sub in s`. -/
def strContains (s sub : String) : Bool :=
  listHasSub sub.data s.data

/-- Model of Python `s[:n]` (character slicing). -/
def pyTake (n : Nat) (s : String) : String :=
  String.mk (s.data.take n)

/-- Model of Python `s.replace("\n", "\\n")`: every newline character
becomes the two characters backslash, `n`. -/
def escapeNl (s : String) : String :=
  String.mk ((s.data.map (fun c => if c = '\n' then ['\\', 'n'] else [c])).flatten)

/-- Lowercase hexadecimal digit, as produced by Python `%x` formatting
and `hexdigest()`. -/
def hexDigitL (n : Nat) : Char :=
  "0123456789abcdef".data.getD n '0'

/-- Uppercase hexadecimal digit, as produced by `urllib.parse.quote`. -/
def hexDigitU (n : Nat) : Char :=
  "0123456789ABCDEF".data.getD n '0'

/-- Two lowercase hex characters for a byte (Python `f"{b:02x}"` for
`b < 256`). -/
def byteHexL (b : Nat) : List Char :=
  [hexDigitL (b / 16 % 16), hexDigitL (b % 16)]

/-- Value of an ASCII hex digit character. -/
def hexVal (c : Char) : Nat :=
  if c.isDigit then c.toNat - '0'.toNat
  else if 'a' ≤ c && c ≤ 'f' then c.toNat - 'a'.toNat + 10
  else if 'A' ≤ c && c ≤ 'F' then c.toNat - 'A'.toNat + 10
  else 0

def isHexDigitChar (c : Char) : Bool :=
  c.isDigit || ('a' ≤ c && c ≤ 'f') || ('A' ≤ c && c ≤ 'F')

/-! ## UTF-8 (used by Python `str.encode("utf-8")` and `urllib` codecs) -/

/-- UTF-8 encoding of a single character, as a list of byte values. -/
def utf8EncodeChar (c : Char) : List Nat :=
  let n := c.toNat
  if n < 128 then [n]
  else if n < 2048 then [192 ||| (n >>> 6), 128 ||| (n &&& 63)]
  else if n < 65536 then
    [224 ||| (n >>> 12), 128 ||| ((n >>> 6) &&& 63), 128 ||| (n &&& 63)]
  else
    [240 ||| (n >>> 18), 128 ||| ((n >>> 12) &&& 63),
     128 ||| ((n >>> 6) &&& 63), 128 ||| (n &&& 63)]

/-- Model of Python `s.encode("utf-8")` as a byte list. -/
def utf8Encode (s : String) : List Nat :=
  (s.data.map utf8EncodeChar).flatten

/-- The Unicode replacement character produced by `errors="replace"`. -/
def replChar : Char := Char.ofNat 65533

def isUtf8Cont (b : Nat) : Bool := 128 ≤ b && b < 192

/-- UTF-8 decoding with replacement of invalid sequences, modelling
Python `bytes.decode("utf-8", errors="replace")` closely enough for the
codecs used here (each undecodable byte yields one replacement char). -/
def utf8DecodeGo : Nat → List Nat → List Char
  | 0, _ => []
  | _ + 1, [] => []
  | fuel + 1, b :: rest =>
    if b < 128 then Char.ofNat b :: utf8DecodeGo fuel rest
    else if 194 ≤ b && b ≤ 223 then
      match rest with
      | b2 :: r2 =>
        if isUtf8Cont b2 then
          Char.ofNat (((b - 192) <<< 6) + (b2 - 128)) :: utf8DecodeGo fuel r2
        else replChar :: utf8DecodeGo fuel rest
      | [] => [replChar]
    else if 224 ≤ b && b ≤ 239 then
      match rest with
      | b2 :: b3 :: r3 =>
        if isUtf8Cont b2 && isUtf8Cont b3 then
          let n := ((b - 224) <<< 12) + ((b2 - 128) <<< 6) + (b3 - 128)
          if n < 2048 || (55296 ≤ n && n ≤ 57343) then replChar :: utf8DecodeGo fuel r3
          else Char.ofNat n :: utf8DecodeGo fuel r3
        else replChar :: utf8DecodeGo fuel rest
      | _ => [replChar]
    else if 240 ≤ b && b ≤ 244 then
      match rest with
      | b2 :: b3 :: b4 :: r4 =>
        if isUtf8Cont b2 && isUtf8Cont b3 && isUtf8Cont b4 then
          let n := ((b - 240) <<< 18) + ((b2 - 128) <<< 12) +
            ((b3 - 128) <<< 6) + (b4 - 128)
          if n < 65536 || 1114111 < n then replChar :: utf8DecodeGo fuel r4
          else Char.ofNat n :: utf8DecodeGo fuel r4
        else replChar :: utf8DecodeGo fuel rest
      | _ => [replChar]
    else replChar :: utf8DecodeGo fuel rest

/-- Fuel wrapper: every step of `utf8DecodeGo` consumes at least one input
byte, so `bs.length` steps always suffice. -/
def utf8Decode (bs : List Nat) : List Char :=
  utf8DecodeGo bs.length bs

/-! ## urllib.parse -/

/-- Characters `urllib.parse.quote` never escapes (ASCII letters, digits,
and `_ . - ~`); `urlencode` is called with `safe=""`. -/
def quoteSafe (c : Char) : Bool :=
  c.isAlpha || c.isDigit || c = '_' || c = '.' || c = '-' || c = '~'

/-- Model of `urllib.parse.quote_plus(s, safe="")`: safe characters kept,
space becomes `+`, everything else percent-encoded per UTF-8 byte with
uppercase hex. -/
def pyQuotePlus (s : String) : String :=
  String.mk ((s.data.map (fun c =>
    if quoteSafe c then [c]
    else if c = ' ' then ['+']
    else ((utf8EncodeChar c).map
      (fun b => ['%', hexDigitU (b / 16 % 16), hexDigitU (b % 16)])).flatten)).flatten)

/-- Model of `urllib.parse.urlencode(items)` (default `quote_via =
quote_plus`, `safe=""`): `k=v` pairs joined by `&`. -/
def pyUrlencode (items : List (String × String)) : String :=
  String.intercalate "&" (items.map (fun kv => pyQuotePlus kv.1 ++ "=" ++ pyQuotePlus kv.2))

/-- Percent-decoding to a byte stream: a `%` followed by two hex digits
becomes one byte, any other character contributes its UTF-8 bytes
(mirrors `urllib.parse.unquote`, which leaves malformed escapes
literal). -/
def unquoteBytes : List Char → List Nat
  | [] => []
  | '%' :: a :: b :: rest =>
    if isHexDigitChar a && isHexDigitChar b then
      (hexVal a * 16 + hexVal b) :: unquoteBytes rest
    else utf8EncodeChar '%' ++ unquoteBytes (a :: b :: rest)
  | c :: rest => utf8EncodeChar c ++ unquoteBytes rest

/-- Model of `urllib.parse.unquote_plus` as used by `parse_qsl`: `+`
becomes space, then percent-escapes are decoded as UTF-8 with
replacement. -/
def pyUnquotePlus (s : String) : String :=
  String.mk (utf8Decode (unquoteBytes (s.data.map (fun c => if c = '+' then ' ' else c))))

/-- First component of splitting `l` at the first occurrence of `sep`;
`none` when `sep` does not occur. -/
def splitFirstAt (sep : Char) : List Char → Option (List Char × List Char)
  | [] => none
  | c :: cs =>
    if c = sep then some ([], cs)
    else match splitFirstAt sep cs with
      | none => none
      | some (x, y) => some (c :: x, y)

/-- Everything strictly before the first occurrence of `sep`. -/
def takeUntilChar (sep : Char) (l : List Char) : List Char :=
  l.takeWhile (fun c => c ≠ sep)

/-- The `query` component `urllib.parse.urlparse` extracts: `urlsplit`
first cuts the fragment at the first `#`, then the query is whatever
follows the first `?` of the remainder. -/
def urlQuery (s : String) : String :=
  match splitFirstAt '?' (takeUntilChar '#' s.data) with
  | none => ""
  | some (_, q) => String.mk q

/-- Splitting on a separator character, Python `str.split(sep)` style
(always at least one piece). -/
def splitOnChar (sep : Char) : List Char → List (List Char)
  | [] => [[]]
  | c :: cs =>
    if c = sep then [] :: splitOnChar sep cs
    else match splitOnChar sep cs with
      | [] => [[c]]
      | p :: ps => (c :: p) :: ps

/-- Model of `urllib.parse.parse_qsl(qs)` with default arguments: split
on `&`, skip empty fields, skip fields without `=` and fields with an
empty value (`keep_blank_values=False`), unquote-plus names and
values. -/
def parseQsl (qs : String) : List (String × String) :=
  (splitOnChar '&' qs.data).filterMap (fun nv =>
    if nv.isEmpty then none
    else match splitFirstAt '=' nv with
      | none => none
      | some (n, v) =>
        if v.isEmpty then none
        else some (pyUnquotePlus (String.mk n), pyUnquotePlus (String.mk v)))

/-- Grouping step of `urllib.parse.parse_qs`: values of repeated keys are
collected in order under the first occurrence of the key. -/
def qsInsert : List (String × List String) → String → String → List (String × List String)
  | [], k, v => [(k, [v])]
  | (k0, vs) :: rest, k, v =>
    if k0 = k then (k0, vs ++ [v]) :: rest else (k0, vs) :: qsInsert rest k v

/-- Model of `urllib.parse.parse_qs(qs)` as an association list. -/
def parse_qs (qs : String) : List (String × List String) :=
  (parseQsl qs).foldl (fun m kv => qsInsert m kv.1 kv.2) []

/-- Model of the Python idiom `(q.get(key) or [""])` on a `parse_qs`
result. -/
def qsGetOrBlank (q : List (String × List String)) (k : String) : List String :=
  match q.lookup k with
  | some vs => if vs.isEmpty then [""] else vs
  | none => [""]

/-! ## JSON values (results of `resp.json()` / `json.loads`) -/

/-- JSON values as the scripts see them after parsing. Numbers are
modelled as integers: every numeric field in these flows (`code`,
`expires_in`, `mid`, timestamps) is integral. -/
inductive JVal where
  | null
  | bool (b : Bool)
  | num (n : Int)
  | str (s : String)
  | arr (xs : List JVal)
  | obj (fields : List (String × JVal))

/-- Model of Python `d.get(k)` on a parsed JSON object (a Python dict has
unique keys, so first-match lookup agrees with dict lookup); `.get` on a
non-dict is not used by the scripts on this path. -/
def jget : JVal → String → Option JVal
  | .obj fs, k => fs.lookup k
  | _, _ => none

/-- Python truthiness of a parsed JSON value. -/
def jTruthy : JVal → Bool
  | .null => false
  | .bool b => b
  | .num n => n != 0
  | .str s => s ≠ ""
  | .arr xs => !xs.isEmpty
  | .obj fs => !fs.isEmpty

/-- Python truthiness of a `d.get(k)` result (`None` is falsy). -/
def optTruthy : Option JVal → Bool
  | none => false
  | some v => jTruthy v

/-- Model of the Python idiom `x or dflt` where `x` came from `d.get(k)`. -/
def pyOrOpt (o : Option JVal) (dflt : JVal) : JVal :=
  match o with
  | some v => if jTruthy v then v else dflt
  | none => dflt

/-- Model of Python `d.get(k) == n` for an integer literal `n` (Python
`==` also identifies `True`/`False` with `1`/`0`). -/
def pyEqIntOpt (o : Option JVal) (n : Int) : Bool :=
  match o with
  | some (.num m) => m == n
  | some (.bool b) => (if b then (1 : Int) else 0) == n
  | _ => false

/-- Python `repr` of a parsed JSON value, as interpolated by f-strings
like `f"getWebKey 失败: {data2}"` (no claim inspects this text; it is kept
so error messages stay structurally faithful). -/
def pyRepr : JVal → String
  | .null => "None"
  | .bool true => "True"
  | .bool false => "False"
  | .num n => toString n
  | .str s => "\x27" ++ s ++ "\x27"
  | .arr xs => "[" ++ String.intercalate ", " (xs.attach.map (fun x => pyRepr x.1)) ++ "]"
  | .obj fs => "\x7b" ++ String.intercalate ", "
      (fs.attach.map (fun kv => "\x27" ++ kv.1.1 ++ "\x27: " ++ pyRepr kv.1.2)) ++ "\x7d"
termination_by v => sizeOf v
decreasing_by
  · have h := List.sizeOf_lt_of_mem x.2
    simp only [JVal.arr.sizeOf_spec]
    omega
  · obtain ⟨⟨k, v⟩, hmem⟩ := kv
    have h := List.sizeOf_lt_of_mem hmem
    simp only [JVal.obj.sizeOf_spec, Prod.mk.sizeOf_spec] at h ⊢
    omega

/-- Replace-or-append update of an association list, the semantics of
`d[k] = v` on a Python dict (insertion order is preserved, a new key goes
to the end). -/
def dictSet {β : Type} : List (String × β) → String → β → List (String × β)
  | [], k, v => [(k, v)]
  | (k0, v0) :: rest, k, v =>
    if k0 = k then (k0, v) :: rest else (k0, v0) :: dictSet rest k v

/-! ## MD5 (RFC 1321), the digest used by `hashlib.md5` -/

/-- Per-round additive constants `K[i] = floor(2^32 * abs(sin(i + 1)))`. -/
def md5K : List Nat :=
  [0xd76aa478, 0xe8c7b756, 0x242070db, 0xc1bdceee,
   0xf57c0faf, 0x4787c62a, 0xa8304613, 0xfd469501,
   0x698098d8, 0x8b44f7af, 0xffff5bb1, 0x895cd7be,
   0x6b901122, 0xfd987193, 0xa679438e, 0x49b40821,
   0xf61e2562, 0xc040b340, 0x265e5a51, 0xe9b6c7aa,
   0xd62f105d, 0x02441453, 0xd8a1e681, 0xe7d3fbc8,
   0x21e1cde6, 0xc33707d6, 0xf4d50d87, 0x455a14ed,
   0xa9e3e905, 0xfcefa3f8, 0x676f02d9, 0x8d2a4c8a,
   0xfffa3942, 0x8771f681, 0x6d9d6122, 0xfde5380c,
   0xa4beea44, 0x4bdecfa9, 0xf6bb4b60, 0xbebfbc70,
   0x289b7ec6, 0xeaa127fa, 0xd4ef3085, 0x04881d05,
   0xd9d4d039, 0xe6db99e5, 0x1fa27cf8, 0xc4ac5665,
   0xf4292244, 0x432aff97, 0xab9423a7, 0xfc93a039,
   0x655b59c3, 0x8f0ccc92, 0xffeff47d, 0x85845dd1,
   0x6fa87e4f, 0xfe2ce6e0, 0xa3014314, 0x4e0811a1,
   0xf7537e82, 0xbd3af235, 0x2ad7d2bb, 0xeb86d391]

/-- Per-round left-rotation amounts. -/
def md5S : List Nat :=
  [7, 12, 17, 22, 7, 12, 17, 22, 7, 12, 17, 22, 7, 12, 17, 22,
   5, 9, 14, 20, 5, 9, 14, 20, 5, 9, 14, 20, 5, 9, 14, 20,
   4, 11, 16, 23, 4, 11, 16, 23, 4, 11, 16, 23, 4, 11, 16, 23,
   6, 10, 15, 21, 6, 10, 15, 21, 6, 10, 15, 21, 6, 10, 15, 21]

/-- Rotate a 32-bit word left by `n` bits. -/
def rotl32 (x n : Nat) : Nat :=
  ((x <<< n) ||| (x >>> (32 - n))) &&& 0xFFFFFFFF

/-- Round function selected by the round index. -/
def md5F (i b c d : Nat) : Nat :=
  if i < 16 then (b &&& c) ||| ((0xFFFFFFFF ^^^ b) &&& d)
  else if i < 32 then (d &&& b) ||| ((0xFFFFFFFF ^^^ d) &&& c)
  else if i < 48 then b ^^^ c ^^^ d
  else c ^^^ (b ||| (0xFFFFFFFF ^^^ d))

/-- Message-word index used in the round. -/
def md5G (i : Nat) : Nat :=
  if i < 16 then i
  else if i < 32 then (5 * i + 1) % 16
  else if i < 48 then (3 * i + 5) % 16
  else (7 * i) % 16

/-- Little-endian 32-bit word of a 64-byte chunk at word index `g`. -/
def le32At (chunk : List Nat) (g : Nat) : Nat :=
  chunk.getD (4 * g) 0 + 256 * chunk.getD (4 * g + 1) 0 +
    65536 * chunk.getD (4 * g + 2) 0 + 16777216 * chunk.getD (4 * g + 3) 0

/-- One MD5 round on the running state. -/
def md5Step (w : Nat → Nat) (st : Nat × Nat × Nat × Nat) (i : Nat) : Nat × Nat × Nat × Nat :=
  let (a, b, c, d) := st
  let f := (md5F i b c d + a + md5K.getD i 0 + w (md5G i)) % 4294967296
  (d, (b + rotl32 f (md5S.getD i 0)) % 4294967296, b, c)

/-- Process one 64-byte chunk: 64 rounds, then add into the state mod 2^32. -/
def md5Chunk (st : Nat × Nat × Nat × Nat) (chunk : List Nat) : Nat × Nat × Nat × Nat :=
  let (a0, b0, c0, d0) := st
  let (a, b, c, d) := (List.range 64).foldl (md5Step (le32At chunk)) st
  ((a0 + a) % 4294967296, (b0 + b) % 4294967296,
   (c0 + c) % 4294967296, (d0 + d) % 4294967296)

/-- Little-endian byte serializations of 32- and 64-bit words. -/
def le4 (n : Nat) : List Nat :=
  [n % 256, n / 256 % 256, n / 65536 % 256, n / 16777216 % 256]

def le8 (n : Nat) : List Nat :=
  le4 (n % 4294967296) ++ le4 (n / 4294967296 % 4294967296)

/-- MD5 padding: a `0x80` byte, zeros to 56 mod 64, then the bit length
as a little-endian 64-bit word. -/
def md5Pad (msg : List Nat) : List Nat :=
  msg ++ 128 :: List.replicate ((120 - (msg.length + 1) % 64) % 64) 0 ++
    le8 ((8 * msg.length) % 18446744073709551616)

/-- MD5 digest of a byte list, as 16 bytes. -/
def md5Bytes (msg : List Nat) : List Nat :=
  let st := ((md5Pad msg).toChunks 64).foldl md5Chunk
    (0x67452301, 0xefcdab89, 0x98badcfe, 0x10325476)
  le4 st.1 ++ le4 st.2.1 ++ le4 st.2.2.1 ++ le4 st.2.2.2

/-- Model of `hashlib.md5(bytes).hexdigest()`. -/
def md5Hex (msg : List Nat) : String :=
  String.mk (((md5Bytes msg).map byteHexL).flatten)

/-! ## HTTP responses -/

/-- An HTTP response as the scripts observe it: `status_code`, the
`content-type` header (empty when absent, matching
`resp.headers.get("content-type", "")`), the body text, and the result of
attempting `resp.json()` (`none` when the body is not valid JSON). -/
structure HttpResponse where
  status : Nat
  contentType : String
  text : String
  jsonBody : Option JVal

/-- The error text both scripts build for a non-JSON body:
`f"{api_name} 返回非 JSON: HTTP {resp.status_code}, Content-Type={ctype}, Body前400={snippet}"`
with `snippet = resp.text[:400].replace("\n", "\\n")`. -/
def nonJsonMsg (apiName : String) (resp : HttpResponse) : String :=
  apiName ++ " 返回非 JSON: HTTP " ++ toString resp.status ++
    ", Content-Type=" ++ resp.contentType ++
    ", Body前400=" ++ escapeNl (pyTake 400 resp.text)

/-- Key-scanning loop shared verbatim by `parse_auth_code`
(bili_sms_login.py) and `extract_auth_code` (bili_qr_confirm.py):
`for key in (...): v = (q.get(key) or [""])[0].strip(); if v: return v`. -/
def authScan (q : List (String × List String)) : List String → Option String
  | [] => none
  | k :: ks =>
    let v := pyStrip ((qsGetOrBlank q k).headD "")
    if v ≠ "" then some v else authScan q ks

namespace SmsLogin

/-- Source constant `DEFAULT_APP_KEY` (scripts/bili_sms_login.py line 33). -/
def DEFAULT_APP_KEY : String := "dfca71928277209b"

/-- Source constant `DEFAULT_APP_SEC` (scripts/bili_sms_login.py line 34). -/
def DEFAULT_APP_SEC : String := "b5475a8825547a4fc26c7d518eaaa02e"

/-- Model of `ensure_key_pair_valid`: the process environment is an
association list; the check fails exactly when one of the two override
variables is set without the other. -/
def ensure_key_pair_valid (env : List (String × String)) : Except String Unit :=
  let keySet := (env.lookup "BILI_APP_KEY").isSome
  let secSet := (env.lookup "BILI_APP_SEC").isSome
  if keySet != secSet then
    .error "请同时设置 BILI_APP_KEY 与 BILI_APP_SEC，或都不设置使用默认值。"
  else .ok ()

/-- Source function `_dec2bcd`: `((num // 10) << 4) | (num % 10)`. -/
def dec2bcd (num : Nat) : Nat :=
  ((num / 10) <<< 4) ||| (num % 10)

/-- Model of `gen_device_id`. The 16 + 8 random bytes and the relevant
`time.localtime()` fields are explicit inputs; the buffer and result are
built exactly as in the source: 16 random bytes, seven BCD-coded
date/time bytes, 8 random bytes, then
`md5(buf).hexdigest() + f"{sum(buf) & 0xFF:02x}"`. -/
def gen_device_id (r16 : List Nat) (tmYear tmMon tmMday tmHour tmMin tmSec : Nat)
    (r8 : List Nat) : String :=
  let buf := r16 ++
    [dec2bcd ((tmYear / 100) % 100), dec2bcd (tmYear % 100), dec2bcd tmMon,
     dec2bcd tmMday, dec2bcd tmHour, dec2bcd tmMin, dec2bcd tmSec] ++ r8
  md5Hex buf ++ String.mk (byteHexL (buf.sum &&& 255))

/-- Values a parameter dict passed to `app_sign` can hold on the call
sites in the script: strings, integers (`cid`), or `None` (unfilled
captcha fields). -/
inductive PyVal where
  | none
  | str (s : String)
  | int (n : Int)

/-- Python `str(v)` on such a value. -/
def pyValStr : PyVal → String
  | .none => "None"
  | .str s => s
  | .int n => toString n

/-- The filter `v is not None and v != ""` of `app_sign` (an integer
never equals `""` in Python). -/
def keepParam : PyVal → Bool
  | .none => false
  | .str s => s ≠ ""
  | .int _ => true

/-- First line of `app_sign`:
`data = {k: str(v) for k, v in params.items() if v is not None and v != ""}`. -/
def keptParams (params : List (String × PyVal)) : List (String × String) :=
  (params.filter (fun kv => keepParam kv.2)).map (fun kv => (kv.1, pyValStr kv.2))

/-- Model of `app_sign`. `APP_KEY`/`APP_SEC` and `int(time.time())` are
explicit parameters; the body mirrors the source line by line: filter,
stringify, set `appkey` and `ts`, sort items by key, then store the MD5
of the url-encoded items plus the secret under `sign`. -/
def app_sign (appKey appSec : String) (ts : Nat) (params : List (String × PyVal)) :
    List (String × String) :=
  let data := keptParams params
  let data := dictSet data "appkey" appKey
  let data := dictSet data "ts" (toString ts)
  let items := data.mergeSort (fun a b => a.1 ≤ b.1)
  dictSet data "sign" (md5Hex (utf8Encode (pyUrlencode items ++ appSec)))

/-- Model of `parse_json_or_raise` (bili_sms_login.py): return the parsed
JSON body, or raise `ApiError` with the non-JSON message. -/
def parse_json_or_raise (resp : HttpResponse) (apiName : String) : Except String JVal :=
  match resp.jsonBody with
  | some v => .ok v
  | none => .error (nonJsonMsg apiName resp)

/-- Model of `parse_auth_code`: strip, return bare strings that contain
no `http://` / `https://` substring unchanged, otherwise scan the URL
query for the first non-empty of `auth_code`, `authCode`, `code`. -/
def parse_auth_code (qrUrlOrCode : String) : Except String String :=
  let raw := pyStrip qrUrlOrCode
  if !strContains raw "http://" && !strContains raw "https://" then .ok raw
  else
    match authScan (parse_qs (urlQuery raw)) ["auth_code", "authCode", "code"] with
    | some v => .ok v
    | Option.none => .error "二维码链接里未找到 auth_code，请确认你传入的是扫码解码后的完整链接。"

/-- Model of `load_saved_credentials`: the credential file is `none` when
the path does not exist, otherwise its parsed JSON content (`json.loads`
of the written text; `json.dumps`/`json.loads` is lossless on these
documents). -/
def load_saved_credentials (path : String) (file : Option JVal) : Except String JVal :=
  match file with
  | Option.none => .error ("凭证文件不存在: " ++ path)
  | some d => .ok d

/-- Fallback path of `BiliClient.get_web_key`: parse the response to the
signed fallback GET, fail when its `code` is non-zero, otherwise return
`data2["data"]` (a missing `"data"` key is Python raising `KeyError`,
modelled as an error result). The second component `true` records that
the fallback request was issued. -/
def get_web_key_fallback (fb : HttpResponse) : Except String JVal × Bool :=
  match parse_json_or_raise fb "getWebKey(fallback)" with
  | .error e => (.error e, true)
  | .ok d2 =>
    if !pyEqIntOpt (jget d2 "code") 0 then
      (.error ("getWebKey 失败: " ++ pyRepr d2), true)
    else
      match jget d2 "data" with
      | some v => (.ok v, true)
      | Option.none => (.error "KeyError: \x27data\x27", true)

/-- Model of `BiliClient.get_web_key`, as a function of the primary
response and of the response to the signed fallback GET. The second
component records whether the fallback request was issued. -/
def get_web_key (primary fb : HttpResponse) : Except String JVal × Bool :=
  if primary.status = 200 then
    match parse_json_or_raise primary "getWebKey" with
    | .error e => (.error e, false)
    | .ok d =>
      if pyEqIntOpt (jget d "code") 0 && optTruthy (jget d "data") then
        ((jget d "data").elim (.error "unreachable") .ok, false)
      else get_web_key_fallback fb
  else get_web_key_fallback fb

/-- Cookie-dict comprehension of `save_credentials`:
`{c.get("name"): c.get("value") for c in cookie_list if c.get("name")}`.
Cookie names are JSON strings in this API; a truthy non-string name would
be an unhashable/coerced dict key in Python and is not modelled. -/
def buildCookies (cookieList : List JVal) : List (String × JVal) :=
  cookieList.foldl (fun m c =>
    match jget c "name" with
    | some (.str s) => if s ≠ "" then dictSet m s ((jget c "value").getD .null) else m
    | _ => m) []

/-- The `cookie_list` expression of `save_credentials`:
`(login_data.get("cookie_info") or {}).get("cookies") or []` (a truthy
non-array value would make the Python comprehension crash and is
modelled as the empty list). -/
def cookieListOf (loginData : List (String × JVal)) : List JVal :=
  match pyOrOpt (jget (pyOrOpt (loginData.lookup "cookie_info") (.obj [])) "cookies") (.arr []) with
  | .arr xs => xs
  | _ => []

/-- Model of `save_credentials`: the JSON document written to the output
file (the file system write itself is peripheral; the document is the
observable). `now` is `int(time.time())`. -/
def save_credentials (loginData : List (String × JVal)) (now : Nat) : JVal :=
  let token := pyOrOpt (loginData.lookup "token_info") (.obj [])
  let cookieList := cookieListOf loginData
  .obj
    [("saved_at", .num now),
     ("access_token", (jget token "access_token").getD .null),
     ("refresh_token", (jget token "refresh_token").getD .null),
     ("expires_in", (jget token "expires_in").getD .null),
     ("mid", (jget token "mid").getD .null),
     ("cookies", .obj (buildCookies cookieList)),
     ("raw_token_info", token),
     ("raw_cookie_info", .arr cookieList)]

/-- The `data` dict of the final step of `run_sms_login`:
`data = login_resp.get("data") or {}` (lines 350). -/
def loginDataOf (loginResp : JVal) : List (String × JVal) :=
  match pyOrOpt (jget loginResp "data") (.obj []) with
  | .obj fs => fs
  | _ => []

/-- Final step of `run_sms_login` (lines 350-356): reject the login
response unless `data` has truthy `token_info` and `cookie_info`, and
only then produce the credential document. An `.error` result models
`raise SystemExit` before `save_credentials` is reached, so no file is
written on that path. -/
def finalize_login (loginResp : JVal) (now : Nat) : Except String JVal :=
  let data := loginDataOf loginResp
  if !optTruthy (data.lookup "token_info") || !optTruthy (data.lookup "cookie_info") then
    .error "登录返回缺少 token_info/cookie_info"
  else
    .ok (save_credentials data now)

end SmsLogin

namespace QrConfirm

/-- Model of `parse_json_or_raise` (bili_qr_confirm.py); the message text
is identical to the bili_sms_login.py variant, only the raised exception
class differs (`ConfirmError` instead of `ApiError`). -/
def parse_json_or_raise (resp : HttpResponse) (apiName : String) : Except String JVal :=
  match resp.jsonBody with
  | some v => .ok v
  | none => .error (nonJsonMsg apiName resp)

/-- Model of `load_credentials`: like `load_saved_credentials`, but a
parsed document that is not a JSON object is also rejected
(`isinstance(data, dict)` check). -/
def load_credentials (path : String) (file : Option JVal) : Except String JVal :=
  match file with
  | Option.none => .error ("凭证文件不存在: " ++ path)
  | some d =>
    match d with
    | .obj _ => .ok d
    | _ => .error ("凭证文件格式错误(非对象): " ++ path)

/-- Model of `extract_auth_code`: strip, reject empty input, return
strings that do not start with `http://` / `https://` unchanged,
otherwise scan the URL query for the first non-empty of `auth_code`,
`authCode`, `code`. -/
def extract_auth_code (qrUrlOrCode : String) : Except String String :=
  let raw := pyStrip qrUrlOrCode
  if raw = "" then .error "二维码链接/认证码不能为空"
  else if !(strStartsWith raw "http://" || strStartsWith raw "https://") then .ok raw
  else
    match authScan (parse_qs (urlQuery raw)) ["auth_code", "authCode", "code"] with
    | some v => .ok v
    | Option.none => .error "未在链接 query 中找到 auth_code/authCode/code"

/-- Model of `extract_qrcode_key`: strip, parse the URL query, require a
non-empty `qrcode_key` value. -/
def extract_qrcode_key (qrUrl : String) : Except String String :=
  let q := parse_qs (urlQuery (pyStrip qrUrl))
  let k := pyStrip ((qsGetOrBlank q "qrcode_key").headD "")
  if k = "" then .error "未在链接 query 中找到 qrcode_key" else .ok k

/-- The two confirmation endpoints of `confirm_qr_login`: the web variant
`/x/passport-login/h5/qrcode/confirm` and the TV variant
`/x/passport-tv-login/h5/qrcode/confirm`. -/
inductive Endpoint where
  | web
  | tv
deriving DecidableEq

/-- Routing core of `confirm_qr_login` (bili_qr_confirm.py lines
118-136), given the `--qr` input string: the web branch is taken when the
stripped input starts with `http://` or `https://` AND contains the
substring `qrcode_key=`; the confirmation POST is only reached when the
corresponding extraction succeeds, so an extraction error means no
request is sent to either endpoint. Credential loading, which precedes
this and is independent of the input string, is assumed successful. -/
def confirm_qr_route (input : String) : Except String Endpoint :=
  let raw := pyStrip input
  if (strStartsWith raw "http://" || strStartsWith raw "https://") &&
      strContains raw "qrcode_key=" then
    (extract_qrcode_key raw).map (fun _ => Endpoint.web)
  else
    (extract_auth_code raw).map (fun _ => Endpoint.tv)

end QrConfirm

/-! ## Helper lemmas -/

theorem listIsPref_append_self (n y : List Char) : listIsPref n (n ++ y) = true := by
  induction n with
  | nil => rfl
  | cons a as ih => simp [listIsPref, ih]

theorem listHasSub_self_append (n y : List Char) : listHasSub n (n ++ y) = true := by
  cases h : n ++ y with
  | nil =>
    rcases List.append_eq_nil.mp h with ⟨hn, _⟩
    subst hn
    simp [listHasSub, listIsPref]
  | cons c cs =>
    simp only [listHasSub]
    rw [← h, listIsPref_append_self]
    rfl

theorem listHasSub_append_mid (x n y : List Char) :
    listHasSub n (x ++ (n ++ y)) = true := by
  induction x with
  | nil => simpa using listHasSub_self_append n y
  | cons c cs ih => simp [listHasSub, ih]

theorem strContains_of_data (s mid : String) (x y : List Char)
    (h : s.data = x ++ (mid.data ++ y)) : strContains s mid = true := by
  unfold strContains
  rw [h]
  exact listHasSub_append_mid x mid.data y

theorem listHasSub_of_isPref {n h : List Char} (hp : listIsPref n h = true) :
    listHasSub n h = true := by
  cases h with
  | nil => simpa [listHasSub] using hp
  | cons c cs => simp [listHasSub, hp]

theorem strContains_of_startsWith {s p : String} (h : strStartsWith s p = true) :
    strContains s p = true :=
  listHasSub_of_isPref h

theorem lookup_append {β : Type} (k : String) (l1 l2 : List (String × β)) :
    (l1 ++ l2).lookup k = ((l1.lookup k).or (l2.lookup k)) := by
  induction l1 with
  | nil => simp
  | cons kv rest ih =>
    obtain ⟨k0, v0⟩ := kv
    by_cases hk : k = k0
    · subst hk
      simp [List.lookup]
    · simp [List.lookup, beq_false_of_ne hk, ih]

theorem lookup_eq_none_of_notMem {β : Type} {k : String} {l : List (String × β)}
    (h : k ∉ l.map Prod.fst) : l.lookup k = none := by
  induction l with
  | nil => rfl
  | cons kv rest ih =>
    obtain ⟨k0, v0⟩ := kv
    rw [List.map_cons, List.mem_cons] at h
    push_neg at h
    simp [List.lookup, beq_false_of_ne h.1, ih h.2]

theorem dictSet_of_notMem {β : Type} {k : String} {l : List (String × β)} (v : β)
    (h : k ∉ l.map Prod.fst) : dictSet l k v = l ++ [(k, v)] := by
  induction l with
  | nil => rfl
  | cons kv rest ih =>
    obtain ⟨k0, v0⟩ := kv
    rw [List.map_cons, List.mem_cons] at h
    push_neg at h
    simp [dictSet, Ne.symm h.1, ih h.2]

/-! ## Claims -/

/-- C9: startup validation of the two environment overrides
`BILI_APP_KEY` / `BILI_APP_SEC` fails with a fatal error exactly when one
of the two variables is set and the other is not, and succeeds when both
or neither are set. -/
theorem c9_ensure_key_pair (env : List (String × String)) :
    (SmsLogin.ensure_key_pair_valid env = .ok () ↔
      (env.lookup "BILI_APP_KEY").isSome = (env.lookup "BILI_APP_SEC").isSome) ∧
    ((∃ m, SmsLogin.ensure_key_pair_valid env = .error m) ↔
      ¬(env.lookup "BILI_APP_KEY").isSome = (env.lookup "BILI_APP_SEC").isSome) := by
  unfold SmsLogin.ensure_key_pair_valid
  cases h1 : (env.lookup "BILI_APP_KEY").isSome <;>
    cases h2 : (env.lookup "BILI_APP_SEC").isSome <;>
      simp [h1, h2]

/-- C7: on a response whose body is not valid JSON, `parse_json_or_raise`
raises an error whose message contains the HTTP status code, the content
type, and the body preview truncated to at most 400 characters with
newlines escaped; on a valid-JSON body it returns the parsed object and
raises nothing. The bili_qr_confirm.py variant behaves identically. -/
theorem c7_parse_json_or_raise (resp : HttpResponse) (apiName : String) :
    (resp.jsonBody = none →
      SmsLogin.parse_json_or_raise resp apiName = .error (nonJsonMsg apiName resp) ∧
      strContains (nonJsonMsg apiName resp) (toString resp.status) = true ∧
      strContains (nonJsonMsg apiName resp) resp.contentType = true ∧
      strContains (nonJsonMsg apiName resp) (escapeNl (pyTake 400 resp.text)) = true ∧
      (pyTake 400 resp.text).data.length ≤ 400) ∧
    (∀ v, resp.jsonBody = some v → SmsLogin.parse_json_or_raise resp apiName = .ok v) ∧
    QrConfirm.parse_json_or_raise resp apiName = SmsLogin.parse_json_or_raise resp apiName := by
  refine ⟨fun h => ⟨?_, ?_, ?_, ?_, ?_⟩, fun v h => ?_, rfl⟩
  · simp [SmsLogin.parse_json_or_raise, h]
  · exact strContains_of_data _ _ ((apiName ++ " 返回非 JSON: HTTP ").data)
      ((", Content-Type=" ++ resp.contentType ++ ", Body前400=" ++
        escapeNl (pyTake 400 resp.text)).data)
      (by simp [nonJsonMsg, String.data_append, List.append_assoc])
  · exact strContains_of_data _ _
      ((apiName ++ " 返回非 JSON: HTTP " ++ toString resp.status ++ ", Content-Type=").data)
      ((", Body前400=" ++ escapeNl (pyTake 400 resp.text)).data)
      (by simp [nonJsonMsg, String.data_append, List.append_assoc])
  · exact strContains_of_data _ _
      ((apiName ++ " 返回非 JSON: HTTP " ++ toString resp.status ++ ", Content-Type=" ++
        resp.contentType ++ ", Body前400=").data) []
      (by simp [nonJsonMsg, String.data_append, List.append_assoc])
  · simp only [pyTake, List.length_take]
    exact min_le_left _ _
  · simp [SmsLogin.parse_json_or_raise, h]

/-- Witness for C7 at the example of the spec: body `not json` with
status 502 yields the error whose message contains `502`. -/
theorem c7_witness :
    SmsLogin.parse_json_or_raise ⟨502, "text/html", "not json", none⟩ "api"
      = .error (nonJsonMsg "api" ⟨502, "text/html", "not json", none⟩) ∧
    strContains (nonJsonMsg "api" ⟨502, "text/html", "not json", none⟩) "502" = true := by
  have h := (c7_parse_json_or_raise ⟨502, "text/html", "not json", none⟩ "api").1 rfl
  exact ⟨h.1, by decide⟩

/-- C4: auth-code extraction on `https://x/y?auth_code=ABC123` yields
`ABC123`, a bare string is returned unchanged, a URL lacking every
recognized key yields a missing-field error, and the recognized keys are
consulted in the fixed priority order `auth_code`, `authCode`, `code`
with the first non-empty (after stripping) value winning. -/
theorem c4_auth_code_extraction :
    QrConfirm.extract_auth_code "https://x/y?auth_code=ABC123" = .ok "ABC123" ∧
    QrConfirm.extract_auth_code "ABC123" = .ok "ABC123" ∧
    QrConfirm.extract_auth_code "https://x/y?foo=1"
      = .error "未在链接 query 中找到 auth_code/authCode/code" ∧
    QrConfirm.extract_auth_code "https://x/y?code=C&authCode=B&auth_code=A" = .ok "A" ∧
    QrConfirm.extract_auth_code "https://x/y?code=C&authCode=B" = .ok "B" ∧
    QrConfirm.extract_auth_code "https://x/y?auth_code=%20&code=C" = .ok "C" ∧
    SmsLogin.parse_auth_code "https://x/y?auth_code=ABC123" = .ok "ABC123" ∧
    SmsLogin.parse_auth_code "ABC123" = .ok "ABC123" ∧
    SmsLogin.parse_auth_code "https://x/y?foo=1"
      = .error "二维码链接里未找到 auth_code，请确认你传入的是扫码解码后的完整链接。" :=
  ⟨rfl, rfl, rfl, rfl, rfl, rfl, rfl, rfl, rfl⟩

theorem strMk_data (l : List Char) : (String.mk l).data = l := rfl

theorem length_byteHex_flatten (bs : List Nat) :
    ((bs.map byteHexL).flatten).length = 2 * bs.length := by
  induction bs with
  | nil => rfl
  | cons b rest ih =>
    simp [byteHexL, ih]
    omega

theorem md5Bytes_length (msg : List Nat) : (md5Bytes msg).length = 16 := by
  simp [md5Bytes, le4]

theorem hexDigitL_mem {n : Nat} (h : n < 16) : hexDigitL n ∈ "0123456789abcdef".data := by
  have hall : ∀ m < 16, hexDigitL m ∈ "0123456789abcdef".data := by decide
  exact hall n h

theorem byteHexL_chars (b : Nat) : ∀ c ∈ byteHexL b, c ∈ "0123456789abcdef".data := by
  intro c hc
  simp [byteHexL] at hc
  rcases hc with h | h <;> subst h <;>
    exact hexDigitL_mem (Nat.mod_lt _ (by norm_num))

theorem md5Hex_chars (msg : List Nat) :
    ∀ c ∈ (md5Hex msg).data, c ∈ "0123456789abcdef".data := by
  intro c hc
  simp only [md5Hex, strMk_data, List.mem_flatten, List.mem_map] at hc
  obtain ⟨l, ⟨b, _, rfl⟩, hcl⟩ := hc
  exact byteHexL_chars b c hcl

theorem md5Hex_length (msg : List Nat) : (md5Hex msg).data.length = 32 := by
  simp only [md5Hex, strMk_data, length_byteHex_flatten, md5Bytes_length]

/-- C8: device-id generation, for any current time and any 16 + 8 random
bytes, returns the 32-character MD5 hex digest of the buffer
(16 random bytes, BCD date/time fields, 8 random bytes) followed by the
2-character hex of the one-byte sum of that buffer: a fixed-length string
of exactly 34 hexadecimal characters. -/
theorem c8_gen_device_id (r16 r8 : List Nat) (tmYear tmMon tmMday tmHour tmMin tmSec : Nat)
    (_h16 : r16.length = 16) (_h8 : r8.length = 8) :
    (SmsLogin.gen_device_id r16 tmYear tmMon tmMday tmHour tmMin tmSec r8).data.length = 34 ∧
    (∀ c ∈ (SmsLogin.gen_device_id r16 tmYear tmMon tmMday tmHour tmMin tmSec r8).data,
      c ∈ "0123456789abcdef".data) ∧
    SmsLogin.gen_device_id r16 tmYear tmMon tmMday tmHour tmMin tmSec r8 =
      md5Hex (r16 ++
        [SmsLogin.dec2bcd ((tmYear / 100) % 100), SmsLogin.dec2bcd (tmYear % 100),
         SmsLogin.dec2bcd tmMon, SmsLogin.dec2bcd tmMday, SmsLogin.dec2bcd tmHour,
         SmsLogin.dec2bcd tmMin, SmsLogin.dec2bcd tmSec] ++ r8) ++
      String.mk (byteHexL ((r16 ++
        [SmsLogin.dec2bcd ((tmYear / 100) % 100), SmsLogin.dec2bcd (tmYear % 100),
         SmsLogin.dec2bcd tmMon, SmsLogin.dec2bcd tmMday, SmsLogin.dec2bcd tmHour,
         SmsLogin.dec2bcd tmMin, SmsLogin.dec2bcd tmSec] ++ r8).sum % 256)) := by
  refine ⟨?_, ?_, ?_⟩
  · simp only [SmsLogin.gen_device_id, String.data_append, List.length_append,
      md5Hex_length, strMk_data, byteHexL, List.length_cons, List.length_nil]
  · intro c hc
    simp only [SmsLogin.gen_device_id, String.data_append, List.mem_append] at hc
    rcases hc with h | h
    · exact md5Hex_chars _ c h
    · exact byteHexL_chars _ c (by simpa [strMk_data] using h)
  · have hmod : ∀ x : Nat, x &&& 255 = x % 256 := by
      intro x
      have := Nat.and_pow_two_sub_one_eq_mod x 8
      norm_num at this
      exact this
    simp only [SmsLogin.gen_device_id, hmod]

/-- Witness for C8 at a concrete invocation. -/
theorem c8_witness :
    (SmsLogin.gen_device_id (List.replicate 16 0) 2026 10 12 1 2 3
      (List.replicate 8 0)).data.length = 34 :=
  (c8_gen_device_id (List.replicate 16 0) (List.replicate 8 0) 2026 10 12 1 2 3
    (by simp) (by simp)).1

/-- Counterexample to C3: for the input `https://a/b?xqrcode_key=1` the
query string has no `qrcode_key` parameter, so the claim says the
confirmation is sent to the TV endpoint; the code instead selects the web
branch on a bare substring test, fails to extract `qrcode_key`, and sends
no request at all. -/
theorem c3_counterexample :
    (parse_qs (urlQuery (pyStrip "https://a/b?xqrcode_key=1"))).lookup "qrcode_key" = none ∧
    QrConfirm.confirm_qr_route "https://a/b?xqrcode_key=1"
      = .error "未在链接 query 中找到 qrcode_key" ∧
    ∀ e, QrConfirm.confirm_qr_route "https://a/b?xqrcode_key=1" ≠ .ok e := by
  refine ⟨rfl, rfl, fun e h => ?_⟩
  rw [show QrConfirm.confirm_qr_route "https://a/b?xqrcode_key=1"
    = .error "未在链接 query 中找到 qrcode_key" from rfl] at h
  exact Except.noConfusion h

/-- C3 (amended): the confirmation request goes to the web-variant
endpoint iff the stripped input starts with `http://` or `https://`,
contains the substring `qrcode_key=`, and a non-empty `qrcode_key` value
is extractable from its query; it goes to the TV endpoint iff that
prefix-and-substring test fails and auth-code extraction succeeds. When
the selected branch's extraction fails, no request is sent to either
endpoint. -/
theorem c3_amended (input : String) :
    (QrConfirm.confirm_qr_route input = .ok QrConfirm.Endpoint.web ↔
      ((strStartsWith (pyStrip input) "http://" || strStartsWith (pyStrip input) "https://") &&
        strContains (pyStrip input) "qrcode_key=") = true ∧
      (QrConfirm.extract_qrcode_key (pyStrip input)).isOk = true) ∧
    (QrConfirm.confirm_qr_route input = .ok QrConfirm.Endpoint.tv ↔
      ((strStartsWith (pyStrip input) "http://" || strStartsWith (pyStrip input) "https://") &&
        strContains (pyStrip input) "qrcode_key=") = false ∧
      (QrConfirm.extract_auth_code (pyStrip input)).isOk = true) := by
  simp only [QrConfirm.confirm_qr_route]
  cases hc : ((strStartsWith (pyStrip input) "http://" ||
      strStartsWith (pyStrip input) "https://") && strContains (pyStrip input) "qrcode_key=")
  · cases hex : QrConfirm.extract_auth_code (pyStrip input) <;>
      simp [Except.map, Except.isOk, Except.toBool, hex]
  · cases hex : QrConfirm.extract_qrcode_key (pyStrip input) <;>
      simp [Except.map, Except.isOk, Except.toBool, hex]

/-- Witness for C3 (amended) at a web-style input: the route characterization
applied at `https://a/b?qrcode_key=K1` yields the web endpoint. -/
theorem c3_witness :
    QrConfirm.confirm_qr_route "https://a/b?qrcode_key=K1" = .ok QrConfirm.Endpoint.web :=
  ((c3_amended "https://a/b?qrcode_key=K1").1).mpr ⟨by decide, by decide⟩

/-- Counterexample to C10: on input `" "` (whitespace only) the two
extractors disagree: `extract_auth_code` rejects the empty stripped input
while `parse_auth_code` returns the empty string as a code. -/
theorem c10_counterexample :
    QrConfirm.extract_auth_code " " = .error "二维码链接/认证码不能为空" ∧
    SmsLogin.parse_auth_code " " = .ok "" :=
  ⟨rfl, rfl⟩

/-- C10 (amended): the two auth-code extractors agree — same extracted
code, or failure on both — for every input whose stripped form is
non-empty and is classified identically by both, i.e. it either starts
with `http://`/`https://` (a URL for both) or contains neither substring
(a bare code for both). They genuinely diverge on empty input and on
strings that contain but do not start with a scheme. -/
theorem c10_amended (s : String)
    (hne : pyStrip s ≠ "")
    (hcls : (strStartsWith (pyStrip s) "http://" || strStartsWith (pyStrip s) "https://") = true
      ∨ (strContains (pyStrip s) "http://" = false ∧ strContains (pyStrip s) "https://" = false)) :
    (∃ v, QrConfirm.extract_auth_code s = .ok v ∧ SmsLogin.parse_auth_code s = .ok v) ∨
    ((QrConfirm.extract_auth_code s).isOk = false ∧ (SmsLogin.parse_auth_code s).isOk = false) := by
  rcases hcls with hpref | ⟨hc1, hc2⟩
  · have hcont : (!strContains (pyStrip s) "http://" &&
        !strContains (pyStrip s) "https://") = false := by
      rw [Bool.or_eq_true] at hpref
      rcases hpref with hp | hp
      · simp [strContains_of_startsWith hp]
      · simp [strContains_of_startsWith hp]
    cases hscan : authScan (parse_qs (urlQuery (pyStrip s))) ["auth_code", "authCode", "code"] with
    | none =>
      right
      constructor
      · simp [QrConfirm.extract_auth_code, hne, hpref, hscan, Except.isOk, Except.toBool]
      · simp [SmsLogin.parse_auth_code, hcont, hscan, Except.isOk, Except.toBool]
    | some v =>
      left
      refine ⟨v, ?_, ?_⟩
      · simp [QrConfirm.extract_auth_code, hne, hpref, hscan]
      · simp [SmsLogin.parse_auth_code, hcont, hscan]
  · have hp1 : strStartsWith (pyStrip s) "http://" = false := by
      cases h : strStartsWith (pyStrip s) "http://"
      · rfl
      · exact absurd (strContains_of_startsWith h) (by simp [hc1])
    have hp2 : strStartsWith (pyStrip s) "https://" = false := by
      cases h : strStartsWith (pyStrip s) "https://"
      · rfl
      · exact absurd (strContains_of_startsWith h) (by simp [hc2])
    left
    refine ⟨pyStrip s, ?_, ?_⟩
    · simp [QrConfirm.extract_auth_code, hne, hp1, hp2]
    · simp [SmsLogin.parse_auth_code, hc1, hc2]

/-- Witness for C10 (amended) at the URL of the spec example: both
extractors return `ABC123`. -/
theorem c10_witness :
    ∃ v, QrConfirm.extract_auth_code "https://x/y?auth_code=ABC123" = .ok v ∧
      SmsLogin.parse_auth_code "https://x/y?auth_code=ABC123" = .ok v := by
  rcases c10_amended "https://x/y?auth_code=ABC123" (by decide) (.inl (by decide)) with h | h
  · exact h
  · exact absurd h.1 (by decide)

theorem get_web_key_fallback_snd (fb : HttpResponse) :
    (SmsLogin.get_web_key_fallback fb).2 = true := by
  unfold SmsLogin.get_web_key_fallback
  cases hj : fb.jsonBody with
  | none => simp [SmsLogin.parse_json_or_raise, hj]
  | some d2 =>
    simp only [SmsLogin.parse_json_or_raise, hj]
    split
    · rfl
    · split <;> rfl

/-- Counterexample to C2: a primary key-fetch response with HTTP status
502 does not produce the "non-JSON response" failure the claim requires;
the code skips parsing entirely, issues the fallback signed GET (even
though the primary call did not succeed with a non-zero code), and here
returns the fallback data successfully. -/
theorem c2_counterexample :
    SmsLogin.get_web_key ⟨502, "text/html", "bad gateway", none⟩
        ⟨200, "application/json", "ok",
          some (.obj [("code", .num 0), ("data", .obj [("key", .str "K")])])⟩
      = (.ok (.obj [("key", .str "K")]), true) ∧
    ∀ e, (SmsLogin.get_web_key ⟨502, "text/html", "bad gateway", none⟩
        ⟨200, "application/json", "ok",
          some (.obj [("code", .num 0), ("data", .obj [("key", .str "K")])])⟩).1
      ≠ Except.error e := by
  refine ⟨rfl, fun e h => ?_⟩
  rw [show (SmsLogin.get_web_key ⟨502, "text/html", "bad gateway", none⟩
      ⟨200, "application/json", "ok",
        some (.obj [("code", .num 0), ("data", .obj [("key", .str "K")])])⟩).1
    = Except.ok (JVal.obj [("key", JVal.str "K")]) from rfl] at h
  exact Except.noConfusion h

/-- C2 (amended): in the key-fetch step, a 200 response with a malformed
(non-JSON) body fails with the "non-JSON response" error carrying the
HTTP status and a body preview, without issuing the fallback; the
fallback signed GET is issued exactly when the primary response has a
non-200 status, or parses to JSON whose application-level `code` is
non-zero or whose `data` is missing or falsy. -/
theorem c2_amended (p fb : HttpResponse) :
    (p.status = 200 → p.jsonBody = none →
      SmsLogin.get_web_key p fb = (.error (nonJsonMsg "getWebKey" p), false) ∧
      strContains (nonJsonMsg "getWebKey" p) (toString p.status) = true ∧
      strContains (nonJsonMsg "getWebKey" p) (escapeNl (pyTake 400 p.text)) = true) ∧
    ((SmsLogin.get_web_key p fb).2 = true ↔
      p.status ≠ 200 ∨ ∃ d, p.jsonBody = some d ∧
        (pyEqIntOpt (jget d "code") 0 && optTruthy (jget d "data")) = false) := by
  constructor
  · intro h200 hnone
    refine ⟨?_, ?_, ?_⟩
    · simp [SmsLogin.get_web_key, h200, SmsLogin.parse_json_or_raise, hnone]
    · exact strContains_of_data _ _ (("getWebKey" ++ " 返回非 JSON: HTTP ").data)
        ((", Content-Type=" ++ p.contentType ++ ", Body前400=" ++
          escapeNl (pyTake 400 p.text)).data)
        (by simp [nonJsonMsg, String.data_append, List.append_assoc])
    · exact strContains_of_data _ _
        (("getWebKey" ++ " 返回非 JSON: HTTP " ++ toString p.status ++ ", Content-Type=" ++
          p.contentType ++ ", Body前400=").data) []
        (by simp [nonJsonMsg, String.data_append, List.append_assoc])
  · by_cases h200 : p.status = 200
    · cases hj : p.jsonBody with
      | none =>
        simp [SmsLogin.get_web_key, h200, SmsLogin.parse_json_or_raise, hj]
      | some d =>
        cases hcond : (pyEqIntOpt (jget d "code") 0 && optTruthy (jget d "data")) with
        | false =>
          have hsnd : (SmsLogin.get_web_key p fb).2 = true := by
            simp [SmsLogin.get_web_key, h200, SmsLogin.parse_json_or_raise, hj, hcond,
              get_web_key_fallback_snd]
          rw [hsnd]
          simp only [true_iff]
          exact Or.inr ⟨d, rfl, hcond⟩
        | true =>
          have hsnd : (SmsLogin.get_web_key p fb).2 = false := by
            simp [SmsLogin.get_web_key, h200, SmsLogin.parse_json_or_raise, hj, hcond]
          rw [hsnd]
          simp [h200, hj, hcond]
          rw [Bool.and_eq_true] at hcond
          exact hcond
    · have hsnd : (SmsLogin.get_web_key p fb).2 = true := by
        simp [SmsLogin.get_web_key, h200, get_web_key_fallback_snd]
      rw [hsnd]
      simp [h200]

/-- Witness for C2 (amended): a 200 response with body `not json` fails
with the non-JSON error and no fallback, and the fallback-use
characterization holds at this input. -/
theorem c2_witness :
    SmsLogin.get_web_key ⟨200, "text/html", "not json", none⟩
        ⟨200, "application/json", "ok", some (.obj [("code", .num 0)])⟩
      = (.error (nonJsonMsg "getWebKey" ⟨200, "text/html", "not json", none⟩), false) :=
  ((c2_amended ⟨200, "text/html", "not json", none⟩
    ⟨200, "application/json", "ok", some (.obj [("code", .num 0)])⟩).1 rfl rfl).1

/-- C5: the final login step rejects a response whose data lacks (truthy)
token info or cookie info with a fatal error and produces no credential
document; a credential document is produced only when both fields are
present, and it is exactly the `save_credentials` document. -/
theorem c5_credentials_gate (resp : JVal) (now : Nat) :
    ((SmsLogin.loginDataOf resp).lookup "token_info" = none ∨
      (SmsLogin.loginDataOf resp).lookup "cookie_info" = none →
      SmsLogin.finalize_login resp now = .error "登录返回缺少 token_info/cookie_info") ∧
    (∀ doc, SmsLogin.finalize_login resp now = .ok doc →
      optTruthy ((SmsLogin.loginDataOf resp).lookup "token_info") = true ∧
      optTruthy ((SmsLogin.loginDataOf resp).lookup "cookie_info") = true ∧
      doc = SmsLogin.save_credentials (SmsLogin.loginDataOf resp) now) := by
  constructor
  · intro h
    rcases h with h | h <;> simp [SmsLogin.finalize_login, h, optTruthy]
  · intro doc h
    cases ha : optTruthy ((SmsLogin.loginDataOf resp).lookup "token_info") <;>
      cases hb : optTruthy ((SmsLogin.loginDataOf resp).lookup "cookie_info") <;>
        simp [SmsLogin.finalize_login, ha, hb] at h
    exact ⟨rfl, rfl, h.symm⟩

/-- Witness for C5: a login response whose data has token info but no
cookie info is rejected with the fatal error, so no file is written. -/
theorem c5_witness :
    SmsLogin.finalize_login
        (.obj [("data", .obj [("token_info", .obj [("access_token", .str "AT")])])]) 7
      = .error "登录返回缺少 token_info/cookie_info" :=
  (c5_credentials_gate
    (.obj [("data", .obj [("token_info", .obj [("access_token", .str "AT")])])]) 7).1
    (Or.inr rfl)

/-- C6: saving a credential record for login data containing token info
and cookie info and loading it back yields exactly the saved document
(both loaders), whose `access_token`, `refresh_token`, `expires_in` and
`mid` fields are exactly the corresponding token-info fields and whose
`cookies` field is exactly the saved cookies mapping. -/
theorem c6_roundtrip (data : List (String × JVal)) (now : Nat) (path : String)
    (tok cook : JVal)
    (htok : data.lookup "token_info" = some tok) (htokT : jTruthy tok = true)
    (_hcook : data.lookup "cookie_info" = some cook) (_hcookT : jTruthy cook = true) :
    SmsLogin.load_saved_credentials path (some (SmsLogin.save_credentials data now))
      = .ok (SmsLogin.save_credentials data now) ∧
    QrConfirm.load_credentials path (some (SmsLogin.save_credentials data now))
      = .ok (SmsLogin.save_credentials data now) ∧
    jget (SmsLogin.save_credentials data now) "access_token"
      = some ((jget tok "access_token").getD .null) ∧
    jget (SmsLogin.save_credentials data now) "refresh_token"
      = some ((jget tok "refresh_token").getD .null) ∧
    jget (SmsLogin.save_credentials data now) "expires_in"
      = some ((jget tok "expires_in").getD .null) ∧
    jget (SmsLogin.save_credentials data now) "mid"
      = some ((jget tok "mid").getD .null) ∧
    jget (SmsLogin.save_credentials data now) "cookies"
      = some (.obj (SmsLogin.buildCookies (SmsLogin.cookieListOf data))) ∧
    jget (SmsLogin.save_credentials data now) "raw_token_info" = some tok := by
  have hT : pyOrOpt (data.lookup "token_info") (.obj []) = tok := by
    simp [pyOrOpt, htok, htokT]
  refine ⟨rfl, rfl, ?_, ?_, ?_, ?_, ?_, ?_⟩ <;>
    · simp only [SmsLogin.save_credentials, hT]
      rfl

/-- Witness for C6 at a concrete login payload. -/
theorem c6_witness :
    jget (SmsLogin.save_credentials
        [("token_info", .obj [("access_token", .str "AT"), ("refresh_token", .str "RT"),
           ("expires_in", .num 3600), ("mid", .num 42)]),
         ("cookie_info", .obj [("cookies",
           .arr [.obj [("name", .str "bili_jct"), ("value", .str "CS")]])])] 5)
      "access_token" = some (.str "AT") :=
  (c6_roundtrip
    [("token_info", .obj [("access_token", .str "AT"), ("refresh_token", .str "RT"),
       ("expires_in", .num 3600), ("mid", .num 42)]),
     ("cookie_info", .obj [("cookies",
       .arr [.obj [("name", .str "bili_jct"), ("value", .str "CS")]])])] 5
    "bili_credentials.json"
    (.obj [("access_token", .str "AT"), ("refresh_token", .str "RT"),
      ("expires_in", .num 3600), ("mid", .num 42)])
    (.obj [("cookies", .arr [.obj [("name", .str "bili_jct"), ("value", .str "CS")]])])
    rfl rfl rfl rfl).2.2.1

theorem mem_keys_of_lookup {β : Type} {k : String} {l : List (String × β)} {v : β}
    (h : l.lookup k = some v) : k ∈ l.map Prod.fst := by
  induction l with
  | nil => simp [List.lookup] at h
  | cons kv rest ih =>
    obtain ⟨k0, v0⟩ := kv
    by_cases hk : k = k0
    · subst hk
      simp
    · simp only [List.lookup, beq_false_of_ne hk] at h
      simp [ih h]

theorem keptParams_keys_subset {params : List (String × SmsLogin.PyVal)} {k : String}
    (h : k ∈ (SmsLogin.keptParams params).map Prod.fst) : k ∈ params.map Prod.fst := by
  simp only [SmsLogin.keptParams, List.map_map, List.mem_map, Function.comp] at h
  obtain ⟨kv, hmem, hfst⟩ := h
  rw [List.mem_filter] at hmem
  exact hfst ▸ List.mem_map_of_mem Prod.fst hmem.1

theorem lookup_keptParams_of_keep {params : List (String × SmsLogin.PyVal)} {k : String}
    {v : SmsLogin.PyVal} (hnd : (params.map Prod.fst).Nodup)
    (hlk : params.lookup k = some v) (hkeep : SmsLogin.keepParam v = true) :
    (SmsLogin.keptParams params).lookup k = some (SmsLogin.pyValStr v) := by
  induction params with
  | nil => simp [List.lookup] at hlk
  | cons kv rest ih =>
    obtain ⟨k0, v0⟩ := kv
    rw [List.map_cons, List.nodup_cons] at hnd
    by_cases hk : k = k0
    · subst hk
      simp only [List.lookup, beq_self_eq_true] at hlk
      obtain rfl : v0 = v := by simpa using hlk
      simp [SmsLogin.keptParams, List.filter_cons, hkeep, List.lookup]
    · simp only [List.lookup, beq_false_of_ne hk] at hlk
      have hrest := ih hnd.2 hlk
      simp only [SmsLogin.keptParams, List.filter_cons] at hrest ⊢
      cases hkeep0 : SmsLogin.keepParam v0
      · simpa [hkeep0] using hrest
      · simpa [hkeep0, List.lookup, beq_false_of_ne hk] using hrest

theorem lookup_keptParams_of_drop {params : List (String × SmsLogin.PyVal)} {k : String}
    {v : SmsLogin.PyVal} (hnd : (params.map Prod.fst).Nodup)
    (hlk : params.lookup k = some v) (hkeep : SmsLogin.keepParam v = false) :
    (SmsLogin.keptParams params).lookup k = none := by
  induction params with
  | nil => simp [List.lookup] at hlk
  | cons kv rest ih =>
    obtain ⟨k0, v0⟩ := kv
    rw [List.map_cons, List.nodup_cons] at hnd
    by_cases hk : k = k0
    · subst hk
      simp only [List.lookup, beq_self_eq_true] at hlk
      obtain rfl : v0 = v := by simpa using hlk
      simp only [SmsLogin.keptParams, List.filter_cons, hkeep, Bool.false_eq_true,
        if_false]
      apply lookup_eq_none_of_notMem
      intro hmem
      exact hnd.1 (keptParams_keys_subset hmem)
    · simp only [List.lookup, beq_false_of_ne hk] at hlk
      have hrest := ih hnd.2 hlk
      simp only [SmsLogin.keptParams, List.filter_cons] at hrest ⊢
      cases hkeep0 : SmsLogin.keepParam v0
      · simpa [hkeep0] using hrest
      · simpa [hkeep0, List.lookup, beq_false_of_ne hk] using hrest

/-- Counterexample to C1 as stated for every input mapping: the
`send_sms_code` payload (bili_sms_login.py line 207) already contains a
`"ts"` entry when it is handed to `app_sign`. Such an entry survives the
None/empty drop filter, yet the signer overwrites it with its own fresh
timestamp, so the output is not the surviving input parameters plus
`appkey`/`ts`/`sign`: here the surviving input pair `("ts", "1")` is
absent from the output, which holds `("ts", "1700000000")` instead. -/
theorem c1_counterexample :
    SmsLogin.keptParams [("ts", SmsLogin.PyVal.str "1")] = [("ts", "1")] ∧
    (SmsLogin.app_sign SmsLogin.DEFAULT_APP_KEY SmsLogin.DEFAULT_APP_SEC 1700000000
      [("ts", SmsLogin.PyVal.str "1")]).lookup "ts" = some "1700000000" ∧
    (SmsLogin.app_sign SmsLogin.DEFAULT_APP_KEY SmsLogin.DEFAULT_APP_SEC 1700000000
      [("ts", SmsLogin.PyVal.str "1")]).lookup "ts" ≠ some "1" := by
  refine ⟨rfl, rfl, fun h => ?_⟩
  rw [show (SmsLogin.app_sign SmsLogin.DEFAULT_APP_KEY SmsLogin.DEFAULT_APP_SEC 1700000000
    [("ts", SmsLogin.PyVal.str "1")]).lookup "ts" = some "1700000000" from rfl] at h
  exact absurd (Option.some.inj h) (by decide)

/-- C1 (amended): for a parameter dict (unique keys) that does not itself
use the reserved keys `appkey`/`ts`/`sign` — an input that does supply
one, as `send_sms_code` does with `ts`, has it overwritten by the signer
rather than surviving — the signer drops `None` and empty-string values,
appends `appkey`, `ts` and `sign` in that order, keeps every surviving
parameter (stringified) and only those, and stores under `sign` the MD5
hex digest of the url-encoded key-sorted serialization of all other
output entries with the secret appended — so the signature is
reproducible from the output itself by dropping `sign`, sorting,
url-encoding and re-hashing, and the result is a pure function of the
parameters, the time and the key pair. -/
theorem c1_app_sign (key sec : String) (ts : Nat) (params : List (String × SmsLogin.PyVal))
    (hnd : (params.map Prod.fst).Nodup)
    (hk : "appkey" ∉ params.map Prod.fst)
    (ht : "ts" ∉ params.map Prod.fst)
    (hs : "sign" ∉ params.map Prod.fst) :
    SmsLogin.app_sign key sec ts params
      = SmsLogin.keptParams params ++ [("appkey", key)] ++ [("ts", toString ts)] ++
        [("sign", md5Hex (utf8Encode (pyUrlencode
          ((SmsLogin.keptParams params ++ [("appkey", key)] ++
            [("ts", toString ts)]).mergeSort (fun a b => a.1 ≤ b.1)) ++ sec)))] ∧
    (SmsLogin.app_sign key sec ts params).map Prod.fst
      = (SmsLogin.keptParams params).map Prod.fst ++ ["appkey", "ts", "sign"] ∧
    (SmsLogin.app_sign key sec ts params).lookup "appkey" = some key ∧
    (SmsLogin.app_sign key sec ts params).lookup "ts" = some (toString ts) ∧
    (∀ k v, params.lookup k = some v → SmsLogin.keepParam v = true →
      (SmsLogin.app_sign key sec ts params).lookup k = some (SmsLogin.pyValStr v)) ∧
    (∀ k v, params.lookup k = some v → SmsLogin.keepParam v = false →
      (SmsLogin.app_sign key sec ts params).lookup k = none) ∧
    (SmsLogin.app_sign key sec ts params).lookup "sign"
      = some (md5Hex (utf8Encode (pyUrlencode
          (((SmsLogin.app_sign key sec ts params).filter
            (fun kv => kv.1 ≠ "sign")).mergeSort (fun a b => a.1 ≤ b.1)) ++ sec))) := by
  have hk1 : "appkey" ∉ (SmsLogin.keptParams params).map Prod.fst :=
    fun h => hk (keptParams_keys_subset h)
  have ht1 : "ts" ∉ (SmsLogin.keptParams params).map Prod.fst :=
    fun h => ht (keptParams_keys_subset h)
  have hs1 : "sign" ∉ (SmsLogin.keptParams params).map Prod.fst :=
    fun h => hs (keptParams_keys_subset h)
  have ht2 : "ts" ∉ (SmsLogin.keptParams params ++ [("appkey", key)]).map Prod.fst := by
    rw [List.map_append, List.mem_append]
    rintro (h | h)
    · exact ht1 h
    · rw [List.map_singleton, List.mem_singleton] at h
      have h2 : ("ts" : String) = "appkey" := h
      exact absurd h2 (by decide)
  have hs2 : "sign" ∉ (SmsLogin.keptParams params ++ [("appkey", key)] ++
      [("ts", toString ts)]).map Prod.fst := by
    rw [List.map_append, List.map_append, List.mem_append, List.mem_append]
    rintro ((h | h) | h)
    · exact hs1 h
    · rw [List.map_singleton, List.mem_singleton] at h
      have h2 : ("sign" : String) = "appkey" := h
      exact absurd h2 (by decide)
    · rw [List.map_singleton, List.mem_singleton] at h
      have h2 : ("sign" : String) = "ts" := h
      exact absurd h2 (by decide)
  have e1 : dictSet (SmsLogin.keptParams params) "appkey" key
      = SmsLogin.keptParams params ++ [("appkey", key)] := dictSet_of_notMem _ hk1
  have e2 : dictSet (SmsLogin.keptParams params ++ [("appkey", key)]) "ts" (toString ts)
      = SmsLogin.keptParams params ++ [("appkey", key)] ++ [("ts", toString ts)] :=
    dictSet_of_notMem _ ht2
  have e3 : ∀ sg, dictSet (SmsLogin.keptParams params ++ [("appkey", key)] ++
        [("ts", toString ts)]) "sign" sg
      = SmsLogin.keptParams params ++ [("appkey", key)] ++ [("ts", toString ts)] ++
        [("sign", sg)] :=
    fun sg => dictSet_of_notMem _ hs2
  have hout : SmsLogin.app_sign key sec ts params
      = SmsLogin.keptParams params ++ [("appkey", key)] ++ [("ts", toString ts)] ++
        [("sign", md5Hex (utf8Encode (pyUrlencode
          ((SmsLogin.keptParams params ++ [("appkey", key)] ++
            [("ts", toString ts)]).mergeSort (fun a b => a.1 ≤ b.1)) ++ sec)))] := by
    simp only [SmsLogin.app_sign, e1, e2, e3]
  have hassoc : SmsLogin.app_sign key sec ts params
      = SmsLogin.keptParams params ++
        [("appkey", key), ("ts", toString ts),
         ("sign", md5Hex (utf8Encode (pyUrlencode
          ((SmsLogin.keptParams params ++ [("appkey", key)] ++
            [("ts", toString ts)]).mergeSort (fun a b => a.1 ≤ b.1)) ++ sec)))] := by
    rw [hout]
    simp [List.append_assoc]
  refine ⟨hout, ?_, ?_, ?_, ?_, ?_, ?_⟩
  · rw [hout]
    simp [List.map_append]
  · rw [hassoc, lookup_append, lookup_eq_none_of_notMem hk1]
    rfl
  · rw [hassoc, lookup_append, lookup_eq_none_of_notMem ht1]
    rfl
  · intro k v hlk hkeep
    rw [hassoc, lookup_append, lookup_keptParams_of_keep hnd hlk hkeep]
    rfl
  · intro k v hlk hkeep
    have hkmem := mem_keys_of_lookup hlk
    have hne1 : k ≠ "appkey" := fun he => hk (he ▸ hkmem)
    have hne2 : k ≠ "ts" := fun he => ht (he ▸ hkmem)
    have hne3 : k ≠ "sign" := fun he => hs (he ▸ hkmem)
    rw [hassoc, lookup_append, lookup_keptParams_of_drop hnd hlk hkeep]
    simp [List.lookup, beq_false_of_ne hne1, beq_false_of_ne hne2, beq_false_of_ne hne3,
      Option.or]
  · have hsl : (SmsLogin.app_sign key sec ts params).lookup "sign"
        = some (md5Hex (utf8Encode (pyUrlencode
          ((SmsLogin.keptParams params ++ [("appkey", key)] ++
            [("ts", toString ts)]).mergeSort (fun a b => a.1 ≤ b.1)) ++ sec))) := by
      rw [hassoc, lookup_append, lookup_eq_none_of_notMem hs1]
      rfl
    have hfl : (SmsLogin.app_sign key sec ts params).filter (fun kv => kv.1 ≠ "sign")
        = SmsLogin.keptParams params ++ [("appkey", key)] ++ [("ts", toString ts)] := by
      rw [hout, List.filter_append]
      have h1 : (SmsLogin.keptParams params ++ [("appkey", key)] ++
          [("ts", toString ts)]).filter (fun kv => kv.1 ≠ "sign")
          = SmsLogin.keptParams params ++ [("appkey", key)] ++ [("ts", toString ts)] := by
        rw [List.filter_eq_self]
        intro kv hmem
        rw [List.mem_append, List.mem_append] at hmem
        rcases hmem with (hmem | hmem) | hmem
        · have hm : kv.1 ∈ (SmsLogin.keptParams params).map Prod.fst :=
            List.mem_map_of_mem Prod.fst hmem
          have hne : kv.1 ≠ "sign" := fun he => hs1 (he ▸ hm)
          simp [hne]
        · rw [List.mem_singleton] at hmem
          subst hmem
          rfl
        · rw [List.mem_singleton] at hmem
          subst hmem
          rfl
      rw [h1]
      simp
    rw [hsl, hfl]

/-- Witness for C1 at a concrete parameter dict with a kept string, a
kept integer, a dropped `None` and a dropped empty string. -/
theorem c1_witness :
    (SmsLogin.app_sign SmsLogin.DEFAULT_APP_KEY SmsLogin.DEFAULT_APP_SEC 1700000000
      [("tel", .str "1234"), ("cid", .int 86), ("gee_validate", SmsLogin.PyVal.none),
       ("note", .str "")]).lookup "appkey" = some SmsLogin.DEFAULT_APP_KEY ∧
    (SmsLogin.app_sign SmsLogin.DEFAULT_APP_KEY SmsLogin.DEFAULT_APP_SEC 1700000000
      [("tel", .str "1234"), ("cid", .int 86), ("gee_validate", SmsLogin.PyVal.none),
       ("note", .str "")]).lookup "tel" = some "1234" ∧
    (SmsLogin.app_sign SmsLogin.DEFAULT_APP_KEY SmsLogin.DEFAULT_APP_SEC 1700000000
      [("tel", .str "1234"), ("cid", .int 86), ("gee_validate", SmsLogin.PyVal.none),
       ("note", .str "")]).lookup "gee_validate" = none := by
  have h := c1_app_sign SmsLogin.DEFAULT_APP_KEY SmsLogin.DEFAULT_APP_SEC 1700000000
    [("tel", .str "1234"), ("cid", .int 86), ("gee_validate", SmsLogin.PyVal.none),
     ("note", .str "")] (by decide) (by decide) (by decide) (by decide)
  exact ⟨h.2.2.1, h.2.2.2.2.1 "tel" (.str "1234") rfl rfl,
    h.2.2.2.2.2.1 "gee_validate" SmsLogin.PyVal.none rfl rfl⟩
